import Mathlib

/-!
Shallow embedding of the BLE session lifecycle controller in
`src/src/screens/Home.js` (functions `scanDevices`, `connectToDevice`,
`disconnectDevice`, `readDeviceInfoAndBattery`, `subscribeToHeartRate`
and the scan / heart-rate callbacks).

The React component's hook state is modelled as a record `AppState`.
The `let hrSubscription = null;` of Home.js 26 is NOT persistent state:
it is a render-local binding, re-initialized to null on every re-render
of the component body, so each render's closures capture their own
binding.  What does persist is the transport-side monitor registration
held by the BLE manager once `monitorCharacteristicForService` has run
(`AppState.subscriptionLive`); the render-local binding a given
`disconnectDevice` closure reads is passed to it as an explicit
argument (`disconnectDeviceFromUI` fixes it to the fresh-render value).
Calls into the BLE manager and other side effects are recorded in an
`Effect` trace; each awaited transport round-trip is an explicit
`Except String _` input to the function that awaits it (`.error` is a
thrown rejection, its payload the message).
-/

/-- A discovered peripheral as delivered by the scan callback:
`id` plus an optional advertised `name` (`none` models a null/undefined
name; `some ""` an empty one — both are falsy in the JS truthiness test
`scannedDevice.name`). -/
structure Device where
  id : String
  name : Option String
deriving DecidableEq, Repr

/-- JS truthiness of the optional advertised name. -/
def nameTruthy : Option String → Bool
  | none => false
  | some s => s != ""

/-- The battery field of `deviceInfo`: in the JS it is either the string
`'N/A'` or the number decoded by `readUInt8(0)`. -/
inductive BatteryVal where
  | na : BatteryVal
  | pct : Nat → BatteryVal
deriving DecidableEq, Repr

/-- The object passed to `setDeviceInfo({ manufacturer, battery })`. -/
structure DeviceInfo where
  manufacturer : String
  battery : BatteryVal
deriving DecidableEq, Repr

/-- The component state: the six `useState` fields of `Home`, plus
`subscriptionLive` — `true` iff the BLE manager still holds the
heart-rate monitor registration made by
`monitorCharacteristicForService` (Home.js 236), i.e. the registration
has not been `remove()`d.  This registration lives in the manager, not
in the component, so it persists across re-renders; the render-local
`hrSubscription` binding of Home.js 26 is deliberately NOT a field
here (see `disconnectDeviceFromUI`). -/
structure AppState where
  devices : List Device
  isScanning : Bool
  connectedDevice : Option Device
  isConnecting : Bool
  deviceInfo : Option DeviceInfo
  heartRate : Option Nat
  subscriptionLive : Bool
deriving DecidableEq, Repr

/-- Side effects issued to the BLE manager / UI, in program order. -/
inductive Effect where
  | startDeviceScan : Effect
  | stopDeviceScan : Effect
  | setTimeoutMs : Nat → Effect
  | transportConnect : String → Effect
  | discoverServices : String → Effect
  | readCharacteristic : String → String → Effect
  | monitorCharacteristic : String → String → Effect
  | cancelConnection : String → Effect
  | removeSubscription : Effect
  | alert : String → String → Effect
deriving DecidableEq, Repr

/-- `true` on the transport-disconnect effect `cancelConnection`. -/
def Effect.isCancelConnection : Effect → Bool
  | .cancelConnection _ => true
  | _ => false

def deviceInformationService : String := "0000180a-0000-1000-8000-00805f9b34fb"
def manufacturerNameChar : String := "00002a29-0000-1000-8000-00805f9b34fb"
def batteryService : String := "0000180f-0000-1000-8000-00805f9b34fb"
def batteryLevelChar : String := "00002a19-0000-1000-8000-00805f9b34fb"
def heartRateService : String := "0000180d-0000-1000-8000-00805f9b34fb"
def heartRateMeasurementChar : String := "00002a37-0000-1000-8000-00805f9b34fb"

/-- `scanDevices` (Home.js 79-119).  `adapterState` is the string the
awaited `manager.state()` resolves to.  Early-returns if already
scanning; alerts and returns if the adapter is not `PoweredOn`;
otherwise clears the list and connection-derived state, starts the
low-latency scan and arms the 5-second stop timer. -/
def scanDevices (adapterState : String) (s : AppState) : AppState × List Effect :=
  if s.isScanning then (s, [])
  else if adapterState != "PoweredOn" then
    (s, [Effect.alert "Bluetooth is Off" "Please turn on Bluetooth and try again."])
  else
    ({ s with devices := [], isScanning := true, connectedDevice := none,
              deviceInfo := none, heartRate := none },
     [Effect.startDeviceScan, Effect.setTimeoutMs 5000])

/-- One invocation of the scan-result callback (Home.js 95-110):
either an error or a (possibly null) scanned device. -/
structure ScanEvt where
  error : Option String
  device : Option Device
deriving DecidableEq, Repr

/-- The scan callback body: on error, stop reporting the scan as
active; on a truthy-named device, append unless its id is already
present. -/
def onScanResult (s : AppState) (e : ScanEvt) : AppState :=
  match e.error with
  | some _ => { s with isScanning := false }
  | none =>
    match e.device with
    | none => s
    | some d =>
      if nameTruthy d.name then
        if s.devices.any (fun x => x.id == d.id) then s
        else { s with devices := s.devices ++ [d] }
      else s

/-- Scan callback invocations processed in arrival order. -/
def processScanEvents (events : List ScanEvt) (s : AppState) : AppState :=
  events.foldl onScanResult s

/-- The device a scan event contributes, if it passes the callback's
`scannedDevice && scannedDevice.name` filter. -/
def acceptedDevice (e : ScanEvt) : Option Device :=
  match e.error with
  | some _ => none
  | none =>
    match e.device with
    | none => none
    | some d => if nameTruthy d.name then some d else none

/-- All filter-passing devices of an event sequence, in arrival order. -/
def acceptedDevices (events : List ScanEvt) : List Device :=
  events.filterMap acceptedDevice

/-- Specification-level description of the discovery list: keep each
device whose id has not been seen before (in `acc` or earlier in the
list), in first-seen order. -/
def dedupFirstFrom : List Device → List Device → List Device
  | _, [] => []
  | acc, d :: rest =>
    if acc.any (fun x => x.id == d.id) then dedupFirstFrom acc rest
    else d :: dedupFirstFrom (acc ++ [d]) rest

/-- The string value of the `manufacturer` sub-read (Home.js
`safeRead`): the UTF-8 decode of the payload on success, the sentinel
on a thrown read/decode error. -/
def safeReadManufacturer : Except String String → String
  | .ok v => v
  | .error _ => "N/A"

/-- The battery sub-read (Home.js 208-217): `readUInt8(0)` of the
decoded payload bytes; any throw (read rejection, or `readUInt8` on an
empty buffer) is caught and yields the sentinel.  No range check is
performed on the decoded byte. -/
def readBatteryLevel : Except String (List Nat) → BatteryVal
  | .ok bytes =>
    match bytes.get? 0 with
    | some b => .pct b
    | none => .na
  | .error _ => .na

/-- `readDeviceInfoAndBattery` (Home.js 191-229).  `mfr` is the
manufacturer read (already UTF-8 decoded), `bat` the raw battery
payload bytes; both sub-reads are individually guarded, after which
`setDeviceInfo` always runs. -/
def readDeviceInfoAndBattery (mfr : Except String String)
    (bat : Except String (List Nat)) (s : AppState) : AppState × List Effect :=
  ({ s with deviceInfo := some { manufacturer := safeReadManufacturer mfr,
                                 battery := readBatteryLevel bat } },
   [Effect.readCharacteristic deviceInformationService manufacturerNameChar,
    Effect.readCharacteristic batteryService batteryLevelChar])

/-- `subscribeToHeartRate` (Home.js 232-257): registers the monitor
with the BLE manager (the registration is live from here on) and
assigns the returned handle to the `hrSubscription` binding of the
render in which the connect ran — an assignment later renders' closures
never observe, since each re-render re-initializes its own binding. -/
def subscribeToHeartRate (s : AppState) : AppState × List Effect :=
  ({ s with subscriptionLive := true },
   [Effect.monitorCharacteristic heartRateService heartRateMeasurementChar])

/-- One heart-rate notification callback invocation (Home.js 239-252):
skipped on error or missing value; otherwise `readUInt8(1)` of the
payload becomes the new `heartRate` — `readUInt8(1)` throws (uncaught,
hence the `Except`) when the payload has fewer than two bytes. -/
def onHeartRateNotification (s : AppState) (error : Option String)
    (value : Option (List Nat)) : Except String AppState :=
  match error with
  | some _ => .ok s
  | none =>
    match value with
    | none => .ok s
    | some bytes =>
      match bytes.get? 1 with
      | some bpm => .ok { s with heartRate := some bpm }
      | none => .error "RangeError"

/-- A notification event arriving from the transport: the BLE manager
invokes the monitor callback as long as the registration is live;
only `remove()` on the subscription handle deregisters it and makes the
manager drop the event instead. -/
def deliverNotification (s : AppState) (error : Option String)
    (value : Option (List Nat)) : Except String AppState :=
  if s.subscriptionLive then onHeartRateNotification s error value
  else .ok s

/-- Resolutions of the awaited transport round-trips of one
`connectToDevice` run, in the order the source awaits them. -/
structure ConnectOutcomes where
  connectResult : Except String Unit
  discoverResult : Except String Unit
  enumerateResult : Except String Unit
  manufacturerRead : Except String String
  batteryRead : Except String (List Nat)
deriving Repr

/-- The label used in the success alert (`connected.name || connected.id`). -/
def deviceLabel (d : Device) : String :=
  match d.name with
  | some s => if s != "" then s else d.id
  | none => d.id

/-- `connectToDevice` (Home.js 130-171).  The `isConnecting` guard
early-returns from inside the `try`, so the `finally` block
(`setIsConnecting(false); setIsScanning(false)`) still runs on that
path.  On a thrown step the `catch` alerts with the error message and
the same `finally` runs; no `cancelConnection` is issued anywhere. -/
def connectToDevice (o : ConnectOutcomes) (device : Device) (s : AppState) :
    AppState × List Effect :=
  if s.isConnecting then
    ({ s with isConnecting := false, isScanning := false }, [])
  else
    let s1 := { s with isConnecting := true }
    match o.connectResult with
    | .error e =>
      ({ s1 with isConnecting := false, isScanning := false },
       [Effect.stopDeviceScan, Effect.transportConnect device.id,
        Effect.alert "Connection Failed" e])
    | .ok _ =>
      match o.discoverResult with
      | .error e =>
        ({ s1 with isConnecting := false, isScanning := false },
         [Effect.stopDeviceScan, Effect.transportConnect device.id,
          Effect.discoverServices device.id,
          Effect.alert "Connection Failed" e])
      | .ok _ =>
        match o.enumerateResult with
        | .error e =>
          ({ s1 with isConnecting := false, isScanning := false },
           [Effect.stopDeviceScan, Effect.transportConnect device.id,
            Effect.discoverServices device.id,
            Effect.alert "Connection Failed" e])
        | .ok _ =>
          let s2 := { s1 with connectedDevice := some device }
          let r3 := readDeviceInfoAndBattery o.manufacturerRead o.batteryRead s2
          let r4 := subscribeToHeartRate r3.1
          ({ r4.1 with isConnecting := false, isScanning := false },
           Effect.stopDeviceScan :: Effect.transportConnect device.id ::
             Effect.discoverServices device.id :: (r3.2 ++ r4.2 ++
             [Effect.alert "Connected" ("Connected to " ++ deviceLabel device)]))

/-- `disconnectDevice` (Home.js 174-188).  `hrSubscription` is the
value of the render-local `hrSubscription` binding captured by the
invoked closure (truthy iff that render's binding holds a handle).
No-op when no device is connected; otherwise calls `remove()` on the
binding's handle if truthy — which deregisters the monitor — before
awaiting `cancelConnection` (resolution `cancelResult`); a rejection is
caught and only suppresses the success alert; the `finally` clears
`connectedDevice`, `deviceInfo`, `heartRate`. -/
def disconnectDevice (hrSubscription : Bool) (cancelResult : Except String Unit)
    (s : AppState) : AppState × List Effect :=
  match s.connectedDevice with
  | none => (s, [])
  | some d =>
    let removeEffs := if hrSubscription then [Effect.removeSubscription] else []
    let live := if hrSubscription then false else s.subscriptionLive
    let cleared : AppState :=
      { s with subscriptionLive := live, connectedDevice := none,
               deviceInfo := none, heartRate := none }
    match cancelResult with
    | .ok _ =>
      (cleared,
       removeEffs ++ [Effect.cancelConnection d.id,
                      Effect.alert "Disconnected" "Device disconnected successfully."])
    | .error _ =>
      (cleared, removeEffs ++ [Effect.cancelConnection d.id])

/-- The `disconnectDevice` handler the UI can actually invoke.  The
Disconnect button is rendered only when `connectedDevice` is set
(Home.js 301), i.e. only in renders mounted after the connect's
`setConnectedDevice` committed.  Every such render re-runs
`let hrSubscription = null;` (Home.js 26), and nothing in it assigns
the binding again — `subscribeToHeartRate` wrote to the binding of the
earlier render that initiated the connect.  So the closure the button
invokes always sees `hrSubscription === null`, that is, falsy. -/
def disconnectDeviceFromUI (cancelResult : Except String Unit) (s : AppState) :
    AppState × List Effect :=
  disconnectDevice false cancelResult s

/-- The first rejection among the pre-`setConnectedDevice` awaits of a
connect attempt (transport connect, service discovery, enumeration
logging), if any. -/
def connectError (o : ConnectOutcomes) : Option String :=
  match o.connectResult with
  | .error e => some e
  | .ok _ =>
    match o.discoverResult with
    | .error e => some e
    | .ok _ =>
      match o.enumerateResult with
      | .error e => some e
      | .ok _ => none

/-- An idle state: nothing scanning, connecting or connected. -/
def idleState : AppState :=
  { devices := [], isScanning := false, connectedDevice := none,
    isConnecting := false, deviceInfo := none, heartRate := none,
    subscriptionLive := false }

/-- State observed mid connect attempt: the first call has set
`isConnecting` and the scan flag is still up. -/
def inflightState : AppState :=
  { idleState with isConnecting := true, isScanning := true }

def devA : Device := { id := "AA:11", name := some "TracPatch" }

def devB : Device := { id := "BB:22", name := some "HRM-Belt" }

/-- A fully successful connect-attempt trace. -/
def allOkOutcomes : ConnectOutcomes :=
  { connectResult := .ok (), discoverResult := .ok (), enumerateResult := .ok (),
    manufacturerRead := .ok "Acme", batteryRead := .ok [67] }

/-- A trace whose transport connect succeeds but whose service
discovery rejects. -/
def discoverFailOutcomes : ConnectOutcomes :=
  { allOkOutcomes with discoverResult := .error "GATT discovery failed" }

/-- A state holding a connected device, populated info, a heart-rate
sample and a live monitor registration — the state a successful connect
leaves behind. -/
def connectedState : AppState :=
  { idleState with
    connectedDevice := some devA,
    deviceInfo := some { manufacturer := "Acme", battery := BatteryVal.pct 67 },
    heartRate := some 72, subscriptionLive := true }

/-- C1: evaluation at the failing input — `connectToDevice` called
while an attempt is in flight (`isConnecting = true`).  The call does
return without starting a connection (empty effect trace), but because
the guard's early `return` sits inside the `try`, the `finally` block
still runs and clears both `isConnecting` and `isScanning`: the second
call mutates the in-flight attempt's guard state, contrary to the
claim that it leaves the in-flight attempt unaffected. -/
theorem C1_second_connect_clears_guard :
    connectToDevice allOkOutcomes devB inflightState =
      ({ inflightState with isConnecting := false, isScanning := false }, []) ∧
    inflightState.isConnecting = true ∧
    (connectToDevice allOkOutcomes devB inflightState).1.isConnecting = false ∧
    (connectToDevice allOkOutcomes devB inflightState).1.isScanning = false := by
  decide

/-- C8: `scanDevices` called while a scan is already in progress is a
no-op: the state (in particular the discovery list) is unchanged and no
effect — neither a scan start nor a new 5-second timer — is issued. -/
theorem C8_startScan_while_scanning_noop (adapterState : String) (s : AppState)
    (h : s.isScanning = true) :
    scanDevices adapterState s = (s, []) := by
  simp [scanDevices, h]

theorem C8_startScan_while_scanning_noop_witness :
    ({ idleState with isScanning := true } : AppState).isScanning = true ∧
    scanDevices "PoweredOn" { idleState with isScanning := true } =
      ({ idleState with isScanning := true }, []) :=
  ⟨rfl, C8_startScan_while_scanning_noop "PoweredOn" _ rfl⟩

/-- C9: for every notification payload of at least two bytes (byte at
index 1 exists), that second byte becomes the new `heartRate`, and a
subsequent payload overwrites it with its own second byte — no history
is retained. -/
theorem C9_hr_notification_overwrites (s : AppState) (p1 p2 : List Nat) (b1 b2 : Nat)
    (h1 : p1[1]? = some b1) (h2 : p2[1]? = some b2) :
    onHeartRateNotification s none (some p1) = .ok { s with heartRate := some b1 } ∧
    onHeartRateNotification { s with heartRate := some b1 } none (some p2) =
      .ok { s with heartRate := some b2 } := by
  constructor <;> simp [onHeartRateNotification, h1, h2]

theorem C9_hr_notification_overwrites_witness :
    ([0, 72] : List Nat)[1]? = some 72 ∧ ([0, 75] : List Nat)[1]? = some 75 ∧
    onHeartRateNotification idleState none (some [0, 72]) =
      .ok { idleState with heartRate := some 72 } ∧
    onHeartRateNotification { idleState with heartRate := some 72 } none (some [0, 75]) =
      .ok { idleState with heartRate := some 75 } := by
  refine ⟨rfl, rfl, ?_, ?_⟩
  · exact (C9_hr_notification_overwrites idleState [0, 72] [0, 75] 72 75 rfl rfl).1
  · exact (C9_hr_notification_overwrites idleState [0, 72] [0, 75] 72 75 rfl rfl).2

/-- C4 counterexample: with a successfully read battery payload whose
byte 0 is 200 — outside 0-100 — the code stores 200 in the battery
field rather than the "N/A" sentinel the claim requires. -/
theorem C4_out_of_range_battery_stored :
    (readDeviceInfoAndBattery (.ok "Acme") (.ok [200]) idleState).1.deviceInfo =
      some { manufacturer := "Acme", battery := BatteryVal.pct 200 } ∧
    BatteryVal.pct 200 ≠ BatteryVal.na ∧ 100 < 200 := by
  decide

/-- C4 amended: the battery payload is decoded as the 8-bit unsigned
integer at byte 0 and stored verbatim even when outside 0-100; the
"N/A" sentinel arises only when the read itself fails or the payload is
empty (where `readUInt8(0)` throws into the catch). -/
theorem C4_battery_decode_amended (mfr : Except String String) (s : AppState)
    (bytes : List Nat) (b : Nat) (hb : bytes[0]? = some b) :
    (readDeviceInfoAndBattery mfr (.ok bytes) s).1.deviceInfo =
      some { manufacturer := safeReadManufacturer mfr, battery := BatteryVal.pct b } ∧
    (∀ e, (readDeviceInfoAndBattery mfr (.error e) s).1.deviceInfo =
      some { manufacturer := safeReadManufacturer mfr, battery := BatteryVal.na }) ∧
    (readDeviceInfoAndBattery mfr (.ok []) s).1.deviceInfo =
      some { manufacturer := safeReadManufacturer mfr, battery := BatteryVal.na } := by
  refine ⟨?_, fun e => rfl, rfl⟩
  simp [readDeviceInfoAndBattery, readBatteryLevel, hb]

theorem C4_battery_decode_amended_witness :
    ([200] : List Nat)[0]? = some 200 ∧
    (readDeviceInfoAndBattery (.ok "Acme") (.ok [200]) idleState).1.deviceInfo =
      some { manufacturer := safeReadManufacturer (.ok "Acme"),
             battery := BatteryVal.pct 200 } :=
  ⟨rfl, (C4_battery_decode_amended (.ok "Acme") idleState [200] 200 rfl).1⟩

/-- C5: `readDeviceInfoAndBattery` never fails as a whole — it always
populates `deviceInfo` — and the two sub-reads are independent: when
exactly one fails, that field carries the "N/A" sentinel while the
other carries the value actually read. -/
theorem C5_subreads_independent (s : AppState) (e1 e2 m : String)
    (bytes : List Nat) (b : Nat) (hb : bytes[0]? = some b) :
    (∀ mfr bat, ((readDeviceInfoAndBattery mfr bat s).1.deviceInfo).isSome = true) ∧
    (readDeviceInfoAndBattery (.error e1) (.ok bytes) s).1.deviceInfo =
      some { manufacturer := "N/A", battery := BatteryVal.pct b } ∧
    (readDeviceInfoAndBattery (.ok m) (.error e2) s).1.deviceInfo =
      some { manufacturer := m, battery := BatteryVal.na } := by
  refine ⟨fun mfr bat => rfl, ?_, rfl⟩
  simp [readDeviceInfoAndBattery, readBatteryLevel, safeReadManufacturer, hb]

theorem C5_subreads_independent_witness :
    ([67] : List Nat)[0]? = some 67 ∧
    (readDeviceInfoAndBattery (.error "read failed") (.ok [67]) idleState).1.deviceInfo =
      some { manufacturer := "N/A", battery := BatteryVal.pct 67 } :=
  ⟨rfl, (C5_subreads_independent idleState "read failed" "x" "Acme" [67] 67 rfl).2.1⟩

/-- C7: whatever the invoking closure's `hrSubscription` binding holds,
`disconnectDevice` is a no-op when no device is connected; otherwise,
even when the transport disconnect rejects, no error propagates (the
call returns an ordinary state) and teardown is always reached:
session, `deviceInfo` and `heartRate` are cleared, and the resulting
state does not depend on whether the disconnect succeeded. -/
theorem C7_disconnect_teardown (hrSub : Bool) (r : Except String Unit) (s : AppState) :
    (s.connectedDevice = none → disconnectDevice hrSub r s = (s, [])) ∧
    (∀ d, s.connectedDevice = some d →
      (disconnectDevice hrSub r s).1.connectedDevice = none ∧
      (disconnectDevice hrSub r s).1.deviceInfo = none ∧
      (disconnectDevice hrSub r s).1.heartRate = none ∧
      (disconnectDevice hrSub r s).1 = (disconnectDevice hrSub (.ok ()) s).1) := by
  constructor
  · intro h
    simp [disconnectDevice, h]
  · intro d hd
    cases r <;> simp [disconnectDevice, hd]

theorem C7_disconnect_teardown_witness :
    (idleState.connectedDevice = none →
      disconnectDevice false (.error "disconnect rejected") idleState = (idleState, [])) ∧
    connectedState.connectedDevice = some devA ∧
    (disconnectDevice false (.error "disconnect rejected") connectedState).1.connectedDevice = none ∧
    (disconnectDevice false (.error "disconnect rejected") connectedState).1.deviceInfo = none ∧
    (disconnectDevice false (.error "disconnect rejected") connectedState).1.heartRate = none :=
  ⟨(C7_disconnect_teardown false (.error "disconnect rejected") idleState).1,
   rfl,
   ((C7_disconnect_teardown false (.error "disconnect rejected") connectedState).2 devA rfl).1,
   ((C7_disconnect_teardown false (.error "disconnect rejected") connectedState).2 devA rfl).2.1,
   ((C7_disconnect_teardown false (.error "disconnect rejected") connectedState).2 devA rfl).2.2.1⟩

/-- C3: evaluation at the failing input.  `hrSubscription` (Home.js 26)
is a render-local `let`, re-initialized to null on every re-render,
and the Disconnect button exists only in renders after
`setConnectedDevice` committed (Home.js 301); so the `disconnectDevice`
closure the UI can invoke sees `hrSubscription === null`, skips
`remove()`, and issues only the transport disconnect.  Evaluated on the
post-connect state: no `removeSubscription` effect is emitted at all
(so none precedes `cancelConnection`), the monitor registration is
still live after the call, and a notification delivered afterwards
still runs the callback, mutating `heartRate` from the cleared `none`
to `some 80` — both halves of the claim fail on the code. -/
theorem C3_subscription_leaked_on_disconnect :
    (disconnectDeviceFromUI (.ok ()) connectedState).2 =
      [Effect.cancelConnection devA.id,
       Effect.alert "Disconnected" "Device disconnected successfully."] ∧
    Effect.removeSubscription ∉ (disconnectDeviceFromUI (.ok ()) connectedState).2 ∧
    (disconnectDeviceFromUI (.ok ()) connectedState).1.subscriptionLive = true ∧
    (disconnectDeviceFromUI (.ok ()) connectedState).1.heartRate = none ∧
    deliverNotification (disconnectDeviceFromUI (.ok ()) connectedState).1
        none (some [0, 80]) =
      .ok { (disconnectDeviceFromUI (.ok ()) connectedState).1 with
            heartRate := some 80 } ∧
    some 80 ≠ (none : Option Nat) := by
  refine ⟨rfl, by decide, rfl, rfl, rfl, by decide⟩

/-- C2 counterexample: the transport connect succeeds but service
discovery rejects.  The code surfaces the failure alert and resets the
flags, yet its effect trace contains no `cancelConnection`: the
transport connection just established is left dangling, contrary to
the claimed best-effort disconnect. -/
theorem C2_no_disconnect_on_failed_attempt :
    Effect.transportConnect devA.id ∈
      (connectToDevice discoverFailOutcomes devA idleState).2 ∧
    Effect.alert "Connection Failed" "GATT discovery failed" ∈
      (connectToDevice discoverFailOutcomes devA idleState).2 ∧
    ((connectToDevice discoverFailOutcomes devA idleState).2.all
      fun e => !e.isCancelConnection) = true := by
  decide

/-- C2 amended: on any failure during the connect sequence the
controller surfaces a "Connection Failed" alert carrying the underlying
cause and resets the connecting/scanning flags (back to Idle), leaving
the rest of the state unchanged — but it issues no transport
disconnect, so a transport connection established before the failure is
dropped by reference only. -/
theorem C2_failure_rollback_no_disconnect (o : ConnectOutcomes) (d : Device)
    (s : AppState) (e : String) (hng : s.isConnecting = false)
    (hf : connectError o = some e) :
    (connectToDevice o d s).1 = { s with isConnecting := false, isScanning := false } ∧
    Effect.alert "Connection Failed" e ∈ (connectToDevice o d s).2 ∧
    (∀ i, Effect.cancelConnection i ∉ (connectToDevice o d s).2) := by
  cases hco : o.connectResult with
  | error e1 =>
    have he : e1 = e := by
      simpa [connectError, hco] using hf
    subst he
    simp [connectToDevice, hng, hco]
  | ok u =>
    cases hdo : o.discoverResult with
    | error e1 =>
      have he : e1 = e := by
        simpa [connectError, hco, hdo] using hf
      subst he
      simp [connectToDevice, hng, hco, hdo]
    | ok v =>
      cases heo : o.enumerateResult with
      | error e1 =>
        have he : e1 = e := by
          simpa [connectError, hco, hdo, heo] using hf
        subst he
        simp [connectToDevice, hng, hco, hdo, heo]
      | ok w =>
        exact absurd hf (by simp [connectError, hco, hdo, heo])

theorem C2_failure_rollback_no_disconnect_witness :
    idleState.isConnecting = false ∧
    connectError discoverFailOutcomes = some "GATT discovery failed" ∧
    (connectToDevice discoverFailOutcomes devA idleState).1 =
      { idleState with isConnecting := false, isScanning := false } ∧
    (∀ i, Effect.cancelConnection i ∉
      (connectToDevice discoverFailOutcomes devA idleState).2) :=
  ⟨rfl, rfl,
   (C2_failure_rollback_no_disconnect discoverFailOutcomes devA idleState
     "GATT discovery failed" rfl rfl).1,
   (C2_failure_rollback_no_disconnect discoverFailOutcomes devA idleState
     "GATT discovery failed" rfl rfl).2.2⟩

/-- C10: a `scanDevices` call that passes the already-scanning and
adapter-powered-on gates clears the connected-device session, device
info and heart-rate sample along with the discovery list and raises the
scanning flag, while its effect trace contains no transport disconnect
for any previously connected peripheral — the old connection is dropped
by reference only. -/
theorem C10_scan_reset_without_disconnect (s : AppState) (h : s.isScanning = false) :
    (scanDevices "PoweredOn" s).1.devices = [] ∧
    (scanDevices "PoweredOn" s).1.connectedDevice = none ∧
    (scanDevices "PoweredOn" s).1.deviceInfo = none ∧
    (scanDevices "PoweredOn" s).1.heartRate = none ∧
    (scanDevices "PoweredOn" s).1.isScanning = true ∧
    (∀ i, Effect.cancelConnection i ∉ (scanDevices "PoweredOn" s).2) := by
  simp [scanDevices, h]

theorem C10_scan_reset_without_disconnect_witness :
    connectedState.isScanning = false ∧
    connectedState.connectedDevice = some devA ∧
    (scanDevices "PoweredOn" connectedState).1.connectedDevice = none ∧
    (scanDevices "PoweredOn" connectedState).1.heartRate = none ∧
    (∀ i, Effect.cancelConnection i ∉ (scanDevices "PoweredOn" connectedState).2) :=
  ⟨rfl, rfl,
   (C10_scan_reset_without_disconnect connectedState rfl).2.1,
   (C10_scan_reset_without_disconnect connectedState rfl).2.2.2.1,
   (C10_scan_reset_without_disconnect connectedState rfl).2.2.2.2.2⟩

/-- The scan callback changes `devices` exactly by the
filter/dedupe/append step on the accepted device, if any. -/
theorem onScanResult_devices (s : AppState) (e : ScanEvt) :
    (onScanResult s e).devices =
      match acceptedDevice e with
      | none => s.devices
      | some d =>
        if s.devices.any (fun x => x.id == d.id) then s.devices
        else s.devices ++ [d] := by
  rcases e with ⟨err, dev⟩
  cases err with
  | some m => rfl
  | none =>
    cases dev with
    | none => rfl
    | some d =>
      by_cases hn : nameTruthy d.name = true
      · by_cases hm : s.devices.any (fun x => x.id == d.id) = true <;>
          simp [onScanResult, acceptedDevice, hn, hm]
      · simp [onScanResult, acceptedDevice, hn]

/-- Processing scan events appends exactly the first-seen deduplication
of the accepted devices. -/
theorem processScanEvents_devices (events : List ScanEvt) (s : AppState) :
    (processScanEvents events s).devices =
      s.devices ++ dedupFirstFrom s.devices (acceptedDevices events) := by
  induction events generalizing s with
  | nil => simp [processScanEvents, acceptedDevices, dedupFirstFrom]
  | cons e rest ih =>
    have hstep : processScanEvents (e :: rest) s =
        processScanEvents rest (onScanResult s e) := rfl
    rw [hstep, ih (onScanResult s e), onScanResult_devices]
    cases hacc : acceptedDevice e with
    | none =>
      simp [acceptedDevices, List.filterMap_cons, hacc]
    | some d =>
      by_cases hm : s.devices.any (fun x => x.id == d.id) = true
      · simp [acceptedDevices, List.filterMap_cons, hacc, hm, dedupFirstFrom]
      · simp [acceptedDevices, List.filterMap_cons, hacc, hm, dedupFirstFrom]

/-- First-seen deduplication against a duplicate-free accumulator keeps
the identities duplicate-free. -/
theorem dedupFirstFrom_nodup (l : List Device) : ∀ acc : List Device,
    (acc.map (fun d => d.id)).Nodup →
    ((acc ++ dedupFirstFrom acc l).map (fun d => d.id)).Nodup := by
  induction l with
  | nil =>
    intro acc h
    simpa [dedupFirstFrom]
  | cons d rest ih =>
    intro acc h
    by_cases hm : acc.any (fun x => x.id == d.id) = true
    · rw [dedupFirstFrom]
      simp only [hm, if_true]
      exact ih acc h
    · have hnotin : d.id ∉ acc.map (fun x => x.id) := by
        intro hin
        rcases List.mem_map.1 hin with ⟨x, hx, hxc⟩
        exact hm (List.any_eq_true.2 ⟨x, hx, by simp [hxc]⟩)
      have h2 : ((acc ++ [d]).map (fun x => x.id)).Nodup := by
        simp only [List.map_append, List.map_cons, List.map_nil]
        exact List.Nodup.append h (List.nodup_singleton d.id)
          (by simpa [List.disjoint_singleton] using hnotin)
      have h3 := ih (acc ++ [d]) h2
      rw [dedupFirstFrom]
      simp only [hm, if_false]
      simpa [List.append_assoc] using h3

/-- Every device produced by first-seen deduplication comes from the
input list. -/
theorem dedupFirstFrom_subset (l : List Device) : ∀ (acc : List Device) (d : Device),
    d ∈ dedupFirstFrom acc l → d ∈ l := by
  induction l with
  | nil =>
    intro acc d h
    simp [dedupFirstFrom] at h
  | cons a rest ih =>
    intro acc d h
    by_cases hm : acc.any (fun x => x.id == a.id) = true
    · rw [dedupFirstFrom] at h
      simp only [hm, if_true] at h
      exact List.mem_cons_of_mem a (ih acc d h)
    · rw [dedupFirstFrom] at h
      simp only [hm, if_false] at h
      rcases List.mem_cons.1 h with h | h
      · exact h ▸ List.mem_cons_self a rest
      · exact List.mem_cons_of_mem a (ih (acc ++ [a]) d h)

/-- Every accepted scan event carries a truthy advertised name. -/
theorem acceptedDevices_named (events : List ScanEvt) (d : Device)
    (h : d ∈ acceptedDevices events) : nameTruthy d.name = true := by
  rcases List.mem_filterMap.1 h with ⟨e, _, he⟩
  rcases e with ⟨err, dev⟩
  cases err with
  | some m => simp [acceptedDevice] at he
  | none =>
    cases dev with
    | none => simp [acceptedDevice] at he
    | some d0 =>
      by_cases hn : nameTruthy d0.name = true
      · have hd : d0 = d := by simpa [acceptedDevice, hn] using he
        exact hd ▸ hn
      · simp [acceptedDevice, hn] at he

/-- C6: starting from the cleared discovery list a scan begins with,
after any sequence of advertisement events the discovery list is
exactly the accepted advertisements deduplicated by identity keeping
the first occurrence (first-seen order); consequently each identity
occurs at most once and every member has a truthy — non-empty —
advertised name. -/
theorem C6_discovery_set_invariant (events : List ScanEvt) (s : AppState) :
    (processScanEvents events { s with devices := [] }).devices =
      dedupFirstFrom [] (acceptedDevices events) ∧
    ((processScanEvents events { s with devices := [] }).devices.map
      (fun d => d.id)).Nodup ∧
    (∀ d ∈ (processScanEvents events { s with devices := [] }).devices,
      nameTruthy d.name = true) := by
  have h1 : (processScanEvents events { s with devices := [] }).devices =
      dedupFirstFrom [] (acceptedDevices events) := by
    simpa using processScanEvents_devices events { s with devices := [] }
  refine ⟨h1, ?_, ?_⟩
  · rw [h1]
    simpa using dedupFirstFrom_nodup (acceptedDevices events) [] (by simp)
  · intro d hd
    rw [h1] at hd
    exact acceptedDevices_named events d (dedupFirstFrom_subset _ _ d hd)
